import Mathlib

/-!
Verification of the Production-ML-Pipeline-Dashboard core logic.

This file gives a shallow embedding, in Lean 4, of the entity store
(`src/src/hooks/useMockData.ts`), the sync reconciler
(`src/project/src/context/DataSyncContext.tsx`) and the pipeline progress
simulator (`src/project/src/components/views/Monitoring.tsx`), and proves
or refutes the specification claims about them.

Modelling conventions:
* JavaScript numbers are modelled as `ℚ` (all constants in the source are
  exact decimals) or `Nat` for counts/sizes.
* `Math.random()` draws are passed in explicitly as `ℚ` parameters
  (the source draws from `[0,1)`).
* `Date.now()` / `new Date().toISOString()` values are passed in as an
  explicit `now : String` parameter.
* JavaScript string operations (`toLowerCase`, `includes`,
  `split(sep)[0]`) are modelled over `String.data` (`List Char`) so that
  everything is executable and kernel-decidable.
* React `setState` updater pipelines are flattened into pure functions on
  an explicit record of the five collections; this is faithful because
  the handlers enqueue their updates in program order on a single thread.
-/

/-- JS `a.startsWith(b)` on character lists. -/
def charsStartWith : List Char → List Char → Bool
  | _, [] => true
  | [], _ :: _ => false
  | c :: cs, d :: ds => c == d && charsStartWith cs ds

/-- JS `s.includes(sub)` on character lists: `sub` occurs contiguously in `s`. -/
def charsHaveSub (sub : List Char) : List Char → Bool
  | [] => charsStartWith [] sub
  | c :: cs => charsStartWith (c :: cs) sub || charsHaveSub sub cs

/-- JS `s.includes(sub)` for strings. -/
def strIncludes (s sub : String) : Bool :=
  charsHaveSub sub.data s.data

/-- JS `s.split(sep)[0]`: the longest initial segment before `sep`. -/
def takeUntil (sep : Char) : List Char → List Char
  | [] => []
  | c :: cs => if c == sep then [] else c :: takeUntil sep cs

/-- JS `s.toLowerCase()` (ASCII, which is all the sources use), as chars. -/
def lowerData (s : String) : List Char :=
  s.data.map Char.toLower

/-- `lowerData` packaged back into a string. -/
def lowerStr (s : String) : String :=
  ⟨lowerData s⟩

/-- `s.toLowerCase().split(' ')[0]` from `deleteDataset`. -/
def firstWordLower (s : String) : String :=
  ⟨takeUntil ' ' (lowerData s)⟩

/-- `s.toLowerCase().split('.')[0]` from `deleteDataset`. -/
def preDotLower (s : String) : String :=
  ⟨takeUntil '.' (lowerData s)⟩

/-! ## Data model (src/types.ts) -/

/-- Pipeline.status. -/
inductive PStatus where
  | idle | running | completed | failed
deriving DecidableEq, Repr

/-- Experiment.status. -/
inductive EStatus where
  | running | completed | failed
deriving DecidableEq, Repr

/-- Alert.severity. -/
inductive Severity where
  | low | medium | high
deriving DecidableEq, Repr

/-- Pipeline record. UI-only sub-configs (hyperparameters, notifications,
schedule, retries) are not consulted by any operation modelled here and are
omitted. -/
structure Pipeline where
  id : String
  name : String
  description : Option String := none
  status : PStatus
  progress : ℚ
  created_at : String := ""
  last_run : Option String := none
  model_accuracy : Option ℚ := none
  data_drift_score : Option ℚ := none
  algorithm : Option String := none
  dataset_id : Option String := none
deriving DecidableEq, Repr

/-- Dataset record. -/
structure Dataset where
  id : String
  name : String
  size : Nat
  columns : Nat
  null_percentage : ℚ
  created_at : String := ""
deriving DecidableEq, Repr

/-- ModelMetrics record. `precisionVal` and `recallVal` model the source
fields `precision` and `recall` (reserved tokens in Lean). -/
structure ModelMetrics where
  accuracy : ℚ := 0
  precisionVal : ℚ := 0
  recallVal : ℚ := 0
  f1_score : ℚ := 0
  auc_roc : ℚ := 0
  training_time : ℚ := 0
deriving DecidableEq, Repr

/-- Experiment record. -/
structure Experiment where
  id : String
  name : String
  status : EStatus
  algorithm : String := ""
  metrics : ModelMetrics := {}
  start_time : String := ""
  duration : Option ℚ := none
deriving DecidableEq, Repr

/-- Alert record. The `type` field is kept as a plain string because the
source stores values outside the declared union as well. -/
structure Alert where
  id : String
  type : String := "performance"
  severity : Severity := .low
  message : String
  timestamp : String := ""
  acknowledged : Bool := false
deriving DecidableEq, Repr

/-- ExternalConnection record. -/
structure ExternalConnection where
  id : String
  name : String
  type : String := "rest_api"
  url : String := ""
  status : String := "connected"
  lastSync : String := ""
  recordCount : Nat := 0
  syncFrequency : String := ""
  created_at : String := ""
deriving DecidableEq, Repr

/-- The five in-memory collections owned by `useMockData`. -/
structure MockDataState where
  pipelines : List Pipeline
  datasets : List Dataset
  alerts : List Alert
  experiments : List Experiment
  externalConnections : List ExternalConnection
deriving DecidableEq, Repr

/-! ## Entity store: deleteDataset cascade (useMockData.ts:245-319) -/

/-- `pipelines.filter(p => p.dataset_id === datasetId)`. -/
def relatedPipelinePred (datasetId : String) (p : Pipeline) : Bool :=
  p.dataset_id == some datasetId

/-- The experiment cascade test from `deleteDataset`:
`relatedPipelineNames.some(pipelineName =>
   e.name.toLowerCase().includes(pipelineName.toLowerCase().split(' ')[0]) ||
   e.name.toLowerCase().includes(datasetToDelete.name.toLowerCase().split('.')[0]))`.
Note both disjuncts sit under the `some` over removed pipeline names. -/
def relatedExperimentPred (deletedName : String) (pipelineNames : List String)
    (e : Experiment) : Bool :=
  pipelineNames.any fun pipelineName =>
    strIncludes (lowerStr e.name) (firstWordLower pipelineName) ||
    strIncludes (lowerStr e.name) (preDotLower deletedName)

/-- The alert cascade test from `deleteDataset`. -/
def relatedAlertPred (deletedName : String) (pipelineNames : List String)
    (relatedExperiments : List Experiment) (a : Alert) : Bool :=
  strIncludes (lowerStr a.message) (lowerStr deletedName) ||
  pipelineNames.any (fun n => strIncludes (lowerStr a.message) (lowerStr n)) ||
  relatedExperiments.any (fun e => strIncludes (lowerStr a.message) (lowerStr e.name))

/-- The connection cascade test from `deleteDataset`:
`datasetToDelete.name.includes(`${c.name} (External)`)`. -/
def relatedConnectionPred (deletedName : String) (c : ExternalConnection) : Bool :=
  strIncludes deletedName (c.name ++ " (External)")

/-- The `deletionSummary` string built in `deleteDataset`. -/
def deletionSummary (deletedName : String) (nPipes nExps nAlerts nConns : Nat) : String :=
  String.intercalate ", " (
    ["Dataset \"" ++ deletedName ++ "\" deleted"] ++
    (if nPipes > 0 then [toString nPipes ++ " related pipeline(s) removed"] else []) ++
    (if nExps > 0 then [toString nExps ++ " related model(s) removed"] else []) ++
    (if nAlerts > 0 then [toString nAlerts ++ " related alert(s) cleared"] else []) ++
    (if nConns > 0 then [toString nConns ++ " related connection(s) removed"] else []))

/-- `relatedPipelines` from `deleteDataset`. -/
def relPipelines (datasetId : String) (st : MockDataState) : List Pipeline :=
  st.pipelines.filter (relatedPipelinePred datasetId)

/-- `relatedPipelineNames` from `deleteDataset`. -/
def relNames (datasetId : String) (st : MockDataState) : List String :=
  (relPipelines datasetId st).map (·.name)

/-- `relatedExperiments` from `deleteDataset` (`deletedName` is the found
dataset's name). -/
def relExps (datasetId deletedName : String) (st : MockDataState) : List Experiment :=
  st.experiments.filter (relatedExperimentPred deletedName (relNames datasetId st))

/-- `relatedAlerts` from `deleteDataset`. -/
def relAlertsOf (datasetId deletedName : String) (st : MockDataState) : List Alert :=
  st.alerts.filter
    (relatedAlertPred deletedName (relNames datasetId st) (relExps datasetId deletedName st))

/-- `relatedConnections` from `deleteDataset`. -/
def relConns (deletedName : String) (st : MockDataState) : List ExternalConnection :=
  st.externalConnections.filter (relatedConnectionPred deletedName)

/-- The single summary alert `deleteDataset` appends. -/
def cascadeSummaryAlert (datasetId now deletedName : String) (st : MockDataState) : Alert :=
  { id := "alert_" ++ now
    type := "performance"
    severity := .medium
    message := deletionSummary deletedName
      ((relPipelines datasetId st).map (·.id)).length
      ((relExps datasetId deletedName st).map (·.id)).length
      ((relAlertsOf datasetId deletedName st).map (·.id)).length
      ((relConns deletedName st).map (·.id)).length
    timestamp := now
    acknowledged := false }

/-- `deleteDataset(datasetId)` from useMockData.ts:245-319. `now` stands for
the `Date.now()` / ISO timestamp drawn when the summary alert is built. -/
def deleteDataset (datasetId now : String) (st : MockDataState) : MockDataState :=
  match st.datasets.find? (fun d => d.id == datasetId) with
  | none => st
  | some datasetToDelete =>
    let relatedPipelineIds := (relPipelines datasetId st).map (·.id)
    let relatedExperimentIds := (relExps datasetId datasetToDelete.name st).map (·.id)
    let relatedAlertIds := (relAlertsOf datasetId datasetToDelete.name st).map (·.id)
    let relatedConnectionIds := (relConns datasetToDelete.name st).map (·.id)
    { pipelines :=
        if relatedPipelineIds.length > 0 then
          st.pipelines.filter (fun p => !(relatedPipelineIds.contains p.id))
        else st.pipelines
      experiments :=
        if relatedExperimentIds.length > 0 then
          st.experiments.filter (fun e => !(relatedExperimentIds.contains e.id))
        else st.experiments
      alerts := cascadeSummaryAlert datasetId now datasetToDelete.name st ::
        (if relatedAlertIds.length > 0 then
          st.alerts.filter (fun a => !(relatedAlertIds.contains a.id))
        else st.alerts)
      externalConnections :=
        if relatedConnectionIds.length > 0 then
          st.externalConnections.filter (fun c => !(relatedConnectionIds.contains c.id))
        else st.externalConnections
      datasets := st.datasets.filter (fun d => d.id != datasetId) }

/-! ## Entity store: mergeDatasets (useMockData.ts:321-346) -/

/-- The merged Dataset record built by `mergeDatasets`. `Math.max(...)` over
the selected column counts is `foldr max 0`, which agrees with the JS value
whenever the selection is non-empty (the only case the spec claims cover);
likewise the ℚ division is the JS division for a non-empty selection. -/
def mergedDataset (datasetIds : List String) (newName now : String)
    (st : MockDataState) : Dataset :=
  let selectedDatasets := st.datasets.filter (fun d => datasetIds.contains d.id)
  { id := "dataset_" ++ now
    name := newName
    size := selectedDatasets.foldl (fun sum d => sum + d.size) 0
    columns := (selectedDatasets.map (·.columns)).foldr max 0
    null_percentage :=
      selectedDatasets.foldl (fun sum d => sum + d.null_percentage) 0 /
        (selectedDatasets.length : ℚ)
    created_at := now }

/-- `mergeDatasets(datasetIds, newName)` from useMockData.ts:321-346. -/
def mergeDatasets (datasetIds : List String) (newName now : String)
    (st : MockDataState) : MockDataState :=
  let selectedDatasets := st.datasets.filter (fun d => datasetIds.contains d.id)
  let merged := mergedDataset datasetIds newName now st
  { st with
    datasets := merged :: st.datasets
    alerts :=
      { id := "alert_" ++ now
        type := "performance"
        severity := .low
        message := "Successfully merged " ++ toString selectedDatasets.length ++
          " datasets into \"" ++ newName ++ "\""
        timestamp := now
        acknowledged := false } :: st.alerts }

/-! ## Persistent store adapter (useMockData.ts:14-30)

`localStorage` is modelled as a partial map from keys to stored strings,
and the host `JSON.stringify` / `JSON.parse` pair as abstract functions
returning `Option` (`none` models the call throwing, which the source
catches). -/

/-- `localStorage.setItem`. -/
def setItem (store : String → Option String) (key s : String) :
    String → Option String :=
  fun k => if k = key then some s else store k

/-- `saveToStorage(key, data)`: on a `stringify`/`setItem` failure the
catch block makes it a logged no-op. -/
def saveToStorage {α : Type} (stringify : α → Option String)
    (key : String) (data : α) (store : String → Option String) :
    String → Option String :=
  match stringify data with
  | some s => setItem store key s
  | none => store

/-- `loadFromStorage(key, defaultValue)`: returns the default when the key
is absent or the stored string is empty (JS truthiness of `saved`), and
when `JSON.parse` throws (the catch block). -/
def loadFromStorage {α : Type} (parse : String → Option α)
    (key : String) (defaultValue : α) (store : String → Option String) : α :=
  match store key with
  | none => defaultValue
  | some saved =>
    if saved = "" then defaultValue
    else match parse saved with
      | some v => v
      | none => defaultValue

/-! ## Entity store: experiment training simulator (useMockData.ts:184-215) -/

/-- JS `Math.round` on an exact decimal. -/
def jsRound (q : ℚ) : ℤ :=
  ⌊q + 1/2⌋

/-- The immediate part of `startModelTraining(experimentId)`: mark the
experiment as running. -/
def startModelTraining (experimentId : String) (st : MockDataState) : MockDataState :=
  { st with
    experiments := st.experiments.map fun e =>
      if e.id == experimentId then { e with status := .running } else e }

/-- The `setTimeout` completion callback of `startModelTraining`:
finishes the experiment and appends the completion alert. `dDur`, `dAcc`,
`dPrec`, `dRec` are the four `Math.random()` draws, `now` the timestamp. -/
def modelTrainingComplete (experimentId now : String) (dDur dAcc dPrec dRec : ℚ)
    (st : MockDataState) : MockDataState :=
  { st with
    experiments := st.experiments.map fun e =>
      if e.id == experimentId then
        { e with
          status := .completed
          duration := some ((jsRound (180 + dDur * 120) : ℤ) : ℚ)
          metrics :=
            { e.metrics with
              accuracy := max (7/10) (min (19/20)
                (e.metrics.accuracy + (dAcc - 1/2) * (1/10)))
              precisionVal := max (7/10) (min (19/20)
                (e.metrics.precisionVal + (dPrec - 1/2) * (2/25)))
              recallVal := max (7/10) (min (19/20)
                (e.metrics.recallVal + (dRec - 1/2) * (2/25))) } }
      else e
    alerts :=
      { id := "alert_" ++ now
        type := "performance"
        severity := .low
        message := "Model training completed successfully"
        timestamp := now
        acknowledged := false } :: st.alerts }

/-! ## Sync reconciler (DataSyncContext.tsx:71-148) -/

/-- The reconciler status record. -/
structure SyncStatus where
  isOnline : Bool
  lastSync : String
  isSyncing : Bool
  pendingChanges : Nat
  syncErrors : List String
deriving DecidableEq, Repr

/-- The error message `simulateServerSync` throws on an injected failure. -/
def syncFailureMsg (dataType : String) : String :=
  "Failed to sync " ++ dataType ++ ": Network timeout"

/-- The collection labels for which `triggerSync` issues a simulated remote
call: one per collection that is non-empty at the start of the cycle, in
program order. -/
def issuedCalls (data : MockDataState) : List String :=
  (if data.pipelines.length > 0 then ["pipelines"] else []) ++
  (if data.datasets.length > 0 then ["datasets"] else []) ++
  (if data.alerts.length > 0 then ["alerts"] else []) ++
  (if data.experiments.length > 0 then ["experiments"] else []) ++
  (if data.externalConnections.length > 0 then ["external_connections"] else [])

/-- One `triggerSync` cycle (DataSyncContext.tsx:71-148), acting on the
status record. `fails` is the per-call random failure-injection oracle
(`Math.random() < 0.05` inside `simulateServerSync`). Each issued call's
rejection is caught into the `errors` batch and `Promise.allSettled` waits
for every call, so the batch contains the message of every failed call;
calls are listed in program order (the source pushes in completion order,
which only permutes the same batch). The final `setSyncStatus` clears
`isSyncing`, stamps `lastSync`, keeps `pendingChanges` when the batch is
non-empty and zeroes it otherwise, and replaces `syncErrors` with the
batch. -/
def triggerSync (fails : String → Bool) (now : String) (data : MockDataState)
    (st : SyncStatus) : SyncStatus :=
  if st.isSyncing then st
  else
    let errors := ((issuedCalls data).filter fails).map syncFailureMsg
    { st with
      isSyncing := false
      lastSync := now
      pendingChanges := if errors.length > 0 then st.pendingChanges else 0
      syncErrors := errors }

/-! ## Pipeline progress simulator (Monitoring.tsx:659-745) -/

/-- The `Math.random()` draws consumed by one interval tick of the pipeline
run simulator (progress step, mid-training accuracy wobble, final accuracy
wobble, drift score). Each is drawn from `[0,1)` by the host. -/
structure TickDraws where
  rProg : ℚ := 0
  rAcc : ℚ := 0
  rFin : ℚ := 0
  rDrift : ℚ := 0
deriving DecidableEq, Repr

/-- The mid-training base-accuracy table keyed by
`p.algorithm || 'random_forest'`, with the `|| 0.8` fallback. -/
def midBaseAccuracy (algorithm : Option String) : ℚ :=
  let key := match algorithm with
    | none => "random_forest"
    | some a => if a == "" then "random_forest" else a
  if key == "random_forest" then 85/100
  else if key == "logistic_regression" then 78/100
  else if key == "svm" then 82/100
  else if key == "gradient_boosting" then 87/100
  else if key == "neural_network" then 89/100
  else if key == "decision_tree" then 76/100
  else if key == "naive_bayes" then 73/100
  else 8/10

/-- The completion base-accuracy table, with the `|| 0.85` fallback. -/
def finalBaseAccuracy (algorithm : Option String) : ℚ :=
  let key := match algorithm with
    | none => "random_forest"
    | some a => if a == "" then "random_forest" else a
  if key == "random_forest" then 89/100
  else if key == "logistic_regression" then 82/100
  else if key == "svm" then 85/100
  else if key == "gradient_boosting" then 91/100
  else if key == "neural_network" then 93/100
  else if key == "decision_tree" then 79/100
  else if key == "naive_bayes" then 76/100
  else 85/100

/-- One firing of the `setInterval` callback of `handleStartPipeline`
(Monitoring.tsx:673-738) on a single pipeline record. Returns the updated
record and whether this firing ran the completion branch (which is where
the source calls `clearInterval`). -/
def pipelineTick (now : String) (p : Pipeline) (d : TickDraws) : Pipeline × Bool :=
  if p.status = .running then
    let newProgress := min 100 (p.progress + d.rProg * 10)
    let newAccuracy : Option ℚ :=
      if newProgress > 20 then
        let baseAccuracy := midBaseAccuracy p.algorithm
        let progressFactor := (newProgress - 20) / 80
        let variability := (d.rAcc - 1/2) * (1/10)
        some (max (1/2) (min (49/50)
          (baseAccuracy * (7/10 + 3/10 * progressFactor) + variability)))
      else p.model_accuracy
    if newProgress ≥ 100 then
      let finalAccuracy := max (3/4) (min (49/50)
        (finalBaseAccuracy p.algorithm + (d.rFin - 1/2) * (2/25)))
      let driftScore := max (1/50) (min (7/20) (d.rDrift * (1/4)))
      ({ p with
          progress := 100
          status := .completed
          model_accuracy := some finalAccuracy
          data_drift_score := some driftScore
          last_run := some now }, true)
    else
      ({ p with progress := newProgress, model_accuracy := newAccuracy }, false)
  else (p, false)

/-- The Pipelines view state relevant to the simulator: the shared
pipelines and alerts collections plus the set of pipeline ids that have a
live `setInterval` handle. -/
structure MonState where
  pipelines : List Pipeline
  alerts : List Alert
  activeTimers : List String
deriving DecidableEq, Repr

/-- `handleStartPipeline(id)` (Monitoring.tsx:659-739): mark the pipeline
running with progress 0 and cleared accuracy, and schedule its interval
timer. A missing id is a no-op (the early `return`). -/
def handleStartPipeline (id : String) (st : MonState) : MonState :=
  match st.pipelines.find? (fun p => p.id == id) with
  | none => st
  | some _ =>
    { st with
      pipelines := st.pipelines.map fun p =>
        if p.id == id then
          { p with status := .running, progress := 0, model_accuracy := none }
        else p
      activeTimers := id :: st.activeTimers }

/-- One firing of pipeline `id`'s interval timer at the view level: the
`setPipelines` updater maps `pipelineTick` over the matching record (it
never touches the alerts collection), and `clearInterval` removes the
timer handle exactly when the completion branch ran. -/
def monTick (id now : String) (d : TickDraws) (st : MonState) : MonState :=
  let results := st.pipelines.map fun p =>
    if p.id == id then pipelineTick now p d else (p, false)
  { st with
    pipelines := results.map (·.1)
    activeTimers :=
      if results.any (·.2) then st.activeTimers.erase id else st.activeTimers }

/-- `handleStopPipeline(id)` (Monitoring.tsx:741-745): sets the pipeline
back to idle. The source does not call `clearInterval`, so `activeTimers`
is untouched. -/
def handleStopPipeline (id : String) (st : MonState) : MonState :=
  { st with
    pipelines := st.pipelines.map fun p =>
      if p.id == id then { p with status := .idle } else p }

/-- Iterating the single-pipeline simulator: `runTicks now ds p n` is the
pipeline after `n` interval firings, the `k`-th consuming draws `ds k`. -/
def runTicks (now : String) (ds : Nat → TickDraws) (p : Pipeline) : Nat → Pipeline
  | 0 => p
  | n + 1 => (pipelineTick now (runTicks now ds p n) (ds n)).1

/-! ## Spec-side predicate for the cascade refinement comparison -/

/-- Modelled from the spec claim's wording of the experiment cascade: an
experiment matches when its lower-cased name contains the first word of a
removed pipeline's name OR the pre-extension part of the deleted dataset's
name, the second disjunct standing on its own. Compare with
`relatedExperimentPred`, where the source nests both disjuncts under the
iteration over removed pipeline names. -/
def specExperimentMatches (deletedName : String) (pipelineNames : List String)
    (e : Experiment) : Bool :=
  pipelineNames.any (fun pn => strIncludes (lowerStr e.name) (firstWordLower pn)) ||
  strIncludes (lowerStr e.name) (preDotLower deletedName)

/-! ## Concrete sample states for witnesses and counterexamples -/

/-- A concrete sample dataset used by witness instantiations. -/
def sampleDataset : Dataset := ⟨"d1", "sales.csv", 10, 2, 0, ""⟩

/-- A concrete sample alert used by witness instantiations. -/
def sampleAlert : Alert := ⟨"a1", "performance", .low, "old", "", false⟩

/-- A sample store holding one dataset and one alert. -/
def sampleSyncData : MockDataState := ⟨[], [sampleDataset], [sampleAlert], [], []⟩

/-- A sample idle sync status with pending changes and a stale error. -/
def sampleSyncStatus : SyncStatus := ⟨true, "t0", false, 5, ["stale error"]⟩

/-- A sample store with two datasets for the merge witness. -/
def sampleMergeState : MockDataState :=
  ⟨[], [⟨"d1", "a.csv", 10, 2, 1, ""⟩, ⟨"d2", "b.csv", 5, 7, 3, ""⟩], [], [], []⟩

/-- A sample running pipeline at 50% for the C5 witness. -/
def sampleRunningPipeline : Pipeline :=
  ⟨"1", "P", none, .running, 50, "", none, none, none, none, none⟩

/-- A sample idle pipeline for the timer scenario. -/
def sampleIdlePipeline : Pipeline :=
  ⟨"1", "P", none, .idle, 0, "", none, none, none, none, none⟩

/-- A freshly started pipeline (the state `handleStartPipeline` puts a
record into): running at progress 0 with cleared accuracy. -/
def sampleStartedPipeline : Pipeline :=
  ⟨"1", "P", none, .running, 0, "", none, none, none, none, none⟩

/-- The terminal configuration the simulator is claimed to reach:
completed, progress 100, accuracy set and inside `[0,1]`. -/
def SimDone (q : Pipeline) : Prop :=
  q.status = .completed ∧ q.progress = 100 ∧
    ∃ a, q.model_accuracy = some a ∧ 0 ≤ a ∧ a ≤ 1

/-- A view state with one running pipeline at 95% and no alerts, its timer
live. -/
def sampleMonState : MonState :=
  ⟨[⟨"1", "P", none, .running, 95, "", none, none, none, none, none⟩], [], ["1"]⟩

/-- A store with one dataset and one experiment whose name contains the
dataset's basename, but no pipeline referencing the dataset. -/
def sampleBasenameState : MockDataState :=
  ⟨[], [⟨"d1", "sales.csv", 10, 2, 0, ""⟩], [],
    [⟨"e1", "sales model", .completed, "", {}, "", none⟩], []⟩

/-- A store exercising the full cascade: a dataset, a pipeline referencing
it, an experiment matching the pipeline's first word, and an alert
mentioning the dataset. -/
def sampleCascadeState : MockDataState :=
  ⟨[⟨"p1", "Sales Pipeline", none, .idle, 0, "", none, none, none, none, some "d1"⟩],
    [⟨"d1", "sales.csv", 10, 2, 0, ""⟩],
    [⟨"a1", "performance", .low, "Dataset \"sales.csv\" uploaded successfully", "", false⟩],
    [⟨"e1", "sales model", .completed, "", {}, "", none⟩],
    []⟩

/-! ## Helper lemmas -/

/-- The cascade removal pattern: filtering out the ids of the
`pred`-matching entries is the same as filtering by `pred` itself, as long
as ids are distinct (the guarding `length > 0` check is a semantic no-op). -/
theorem cascade_filter_eq {α β : Type} [DecidableEq β] (l : List α)
    (pred : α → Bool) (f : α → β) (hnd : (l.map f).Nodup) :
    (if ((l.filter pred).map f).length > 0 then
      l.filter (fun x => !(((l.filter pred).map f).contains (f x)))
    else l) = l.filter (fun x => !(pred x)) := by
  have hmem : ∀ x ∈ l, (((l.filter pred).map f).contains (f x)) = pred x := by
    intro x hx
    by_cases hp : pred x = true
    · have : f x ∈ (l.filter pred).map f :=
        List.mem_map_of_mem f (List.mem_filter.mpr ⟨hx, hp⟩)
      simp only [hp]
      simpa using this
    · have hfalse : pred x = false := by simpa using hp
      simp only [hfalse]
      by_contra hcon
      obtain ⟨y, hyl, hpy, hfy⟩ : ∃ y ∈ l, pred y = true ∧ f y = f x := by
        simpa using hcon
      have : y = x := List.inj_on_of_nodup_map hnd hyl hx hfy
      rw [this] at hpy
      rw [hpy] at hfalse
      cases hfalse
  by_cases hc : ((l.filter pred).map f).length > 0
  · rw [if_pos hc]
    exact List.filter_congr fun x hx => by rw [hmem x hx]
  · rw [if_neg hc]
    have hnil : (l.filter pred) = [] := by
      have : ((l.filter pred).map f).length = 0 := by omega
      simpa using this
    have hall : ∀ x ∈ l, pred x = false := by
      intro x hx
      by_contra hcon
      have : pred x = true := by
        cases hxx : pred x with
        | true => rfl
        | false => rw [hxx] at hcon; exact absurd rfl hcon
      have : x ∈ l.filter pred := List.mem_filter.mpr ⟨hx, this⟩
      rw [hnil] at this
      cases this
    symm
    refine List.filter_eq_self.mpr fun a ha => ?_
    rw [hall a ha]
    rfl

/-- Folding addition over `Nat` entries equals the initial value plus the
mapped sum. -/
theorem foldl_add_nat {α : Type} (g : α → Nat) :
    ∀ (l : List α) (n : Nat), l.foldl (fun s d => s + g d) n = n + (l.map g).sum := by
  intro l
  induction l with
  | nil => simp
  | cons a t ih => intro n; simp [ih, Nat.add_assoc]

/-- Folding addition over `ℚ` entries equals the initial value plus the
mapped sum. -/
theorem foldl_add_rat {α : Type} (g : α → ℚ) :
    ∀ (l : List α) (n : ℚ), l.foldl (fun s d => s + g d) n = n + (l.map g).sum := by
  intro l
  induction l with
  | nil => simp
  | cons a t ih => intro n; simp [ih, add_assoc]

/-- On a non-empty `Nat` list, `foldr max 0` is a member and an upper
bound — i.e. it is the maximum. -/
theorem foldr_max_spec :
    ∀ (l : List Nat), l ≠ [] → l.foldr max 0 ∈ l ∧ ∀ c ∈ l, c ≤ l.foldr max 0 := by
  intro l
  induction l with
  | nil => intro h; exact absurd rfl h
  | cons a t ih =>
    intro _
    cases t with
    | nil =>
      refine ⟨?_, ?_⟩
      · simp
      · intro c hc
        simp at hc
        simp [hc]
    | cons b u =>
      obtain ⟨hmem, hbound⟩ := ih (by simp)
      have hfold : (a :: b :: u).foldr max 0 = max a ((b :: u).foldr max 0) := rfl
      constructor
      · rcases max_choice a ((b :: u).foldr max 0) with h | h
        · rw [hfold, h]; exact List.mem_cons_self _ _
        · rw [hfold, h]
          exact List.mem_cons_of_mem a hmem
      · intro c hc
        rw [hfold]
        rcases List.mem_cons.mp hc with h | h
        · rw [h]; exact le_max_left _ _
        · exact le_trans (hbound c h) (le_max_right _ _)

/-! ## Claim theorems -/

/-- C10: `deleteDataset` on an id that is not in the datasets collection is
a complete no-op: the early `return` fires, leaving all five collections
(alerts included) unchanged and appending no summary alert. -/
theorem deleteDataset_absent_noop (datasetId now : String) (st : MockDataState)
    (h : ∀ d ∈ st.datasets, d.id ≠ datasetId) :
    deleteDataset datasetId now st = st := by
  have hf : st.datasets.find? (fun d => d.id == datasetId) = none := by
    rw [List.find?_eq_none]
    intro d hd
    simpa using h d hd
  simp [deleteDataset, hf]

/-- Witness for C10 at a concrete store whose only dataset has a different
id. -/
theorem deleteDataset_absent_noop_witness :
    deleteDataset "dX" "t0"
      ⟨[], [{ id := "d1", name := "sales.csv", size := 10, columns := 2,
              null_percentage := 0 }], [], [], []⟩ =
      ⟨[], [{ id := "d1", name := "sales.csv", size := 10, columns := 2,
              null_percentage := 0 }], [], [], []⟩ :=
  deleteDataset_absent_noop "dX" "t0" _ (by intro d hd; simp at hd; simp [hd])

/-- C7: the persistent store adapter round-trips. If the host serializer
produces a (non-empty) string that the host parser inverts — which is what
"JSON-serializable" means — then `save` then `load` returns the saved
value; `load` of a never-saved key returns the default unchanged; and the
failure paths never escape: a throwing `stringify` makes `save` a no-op on
the store, and a stored string the parser throws on makes `load` return
the default. -/
theorem storage_roundtrip {α : Type} (stringify : α → Option String)
    (parse : String → Option α) (key : String) (X : α) (s : String)
    (store : String → Option String) (dflt : α)
    (h1 : stringify X = some s) (h2 : parse s = some X) (h3 : s ≠ "") :
    loadFromStorage parse key dflt (saveToStorage stringify key X store) = X
    ∧ (∀ (store2 : String → Option String) (d2 : α),
        store2 key = none → loadFromStorage parse key d2 store2 = d2)
    ∧ (∀ (Y : α), stringify Y = none → saveToStorage stringify key Y store = store)
    ∧ (∀ (store2 : String → Option String) (d2 : α) (t : String),
        store2 key = some t → parse t = none → loadFromStorage parse key d2 store2 = d2) := by
  refine ⟨?_, ?_, ?_, ?_⟩
  · simp [saveToStorage, loadFromStorage, setItem, h1, h2, h3]
  · intro store2 d2 hk
    simp [loadFromStorage, hk]
  · intro Y hY
    simp [saveToStorage, hY]
  · intro store2 d2 t hk hp
    by_cases ht : t = ""
    · simp [loadFromStorage, hk, ht]
    · simp [loadFromStorage, hk, ht, hp]

/-- Witness for C7 with a tiny concrete codec on `Nat` and an empty
store. -/
theorem storage_roundtrip_witness :
    loadFromStorage (fun t => if t = "42" then some 42 else none) "k" 0
      (saveToStorage (fun n => if n = 42 then some "42" else none) "k" 42
        (fun _ => none)) = 42 :=
  (storage_roundtrip (fun n => if n = 42 then some "42" else none)
    (fun t => if t = "42" then some 42 else none) "k" 42 "42" (fun _ => none) 0
    (by simp) (by simp) (by simp)).1

/-- `(if c then [a] else []).length` as an `if`. -/
theorem length_ite_singleton {c : Prop} [Decidable c] (a : String) :
    (if c then [a] else []).length = if c then 1 else 0 := by
  split <;> simp

/-- Membership in `if c then [b] else []`. -/
theorem mem_ite_singleton {c : Prop} [Decidable c] (a b : String) :
    (a ∈ if c then [b] else []) ↔ (c ∧ a = b) := by
  split <;> simp_all

/-- C2: after a `triggerSync` cycle (entered while not already syncing),
`pendingChanges` is preserved exactly when at least one issued simulated
call failed, and reset to 0 when none did. -/
theorem triggerSync_pending (fails : String → Bool) (now : String)
    (data : MockDataState) (st : SyncStatus) (h : st.isSyncing = false) :
    ((issuedCalls data).any fails = true →
      (triggerSync fails now data st).pendingChanges = st.pendingChanges)
    ∧ ((issuedCalls data).any fails = false →
      (triggerSync fails now data st).pendingChanges = 0) := by
  have hval : (triggerSync fails now data st).pendingChanges =
      if (((issuedCalls data).filter fails).map syncFailureMsg).length > 0 then
        st.pendingChanges else 0 := by
    simp [triggerSync, h]
  constructor
  · intro hany
    obtain ⟨x, hx, hfx⟩ := List.any_eq_true.mp hany
    have hne : (issuedCalls data).filter fails ≠ [] := by
      intro hnil
      have : x ∈ (issuedCalls data).filter fails := List.mem_filter.mpr ⟨hx, hfx⟩
      rw [hnil] at this
      cases this
    have hpos : (((issuedCalls data).filter fails).map syncFailureMsg).length > 0 := by
      simp only [List.length_map]
      exact List.length_pos.mpr hne
    rw [hval, if_pos hpos]
  · intro hany
    have hnil : (issuedCalls data).filter fails = [] := by
      rw [List.filter_eq_nil_iff]
      intro a ha hfa
      have : (issuedCalls data).any fails = true := List.any_eq_true.mpr ⟨a, ha, hfa⟩
      rw [hany] at this
      cases this
    rw [hval, hnil]
    simp

/-- Witness for C2: the one-dataset sample store with an always-failing
oracle preserves the pending count of 5. -/
theorem triggerSync_pending_witness :
    ((issuedCalls sampleSyncData).any (fun _ => true) = true →
      (triggerSync (fun _ => true) "t1" sampleSyncData
        sampleSyncStatus).pendingChanges = 5)
    ∧ ((issuedCalls sampleSyncData).any (fun _ => true) = false →
      (triggerSync (fun _ => true) "t1" sampleSyncData
        sampleSyncStatus).pendingChanges = 0) :=
  triggerSync_pending (fun _ => true) "t1" sampleSyncData sampleSyncStatus rfl

/-- C3: a `triggerSync` cycle entered while idle issues exactly one
simulated call per collection that is non-empty at cycle start (none for
empty ones — the issued-call labels are pairwise distinct), and finishes
with `syncErrors` equal to exactly the failure messages of this cycle's
issued calls: every issued failing call contributes its message (no
short-circuit on an earlier failure, since each call's rejection is caught
independently and `Promise.allSettled` awaits them all) and the previous
cycle's errors are discarded (the result does not depend on
`st.syncErrors`). -/
theorem triggerSync_calls (fails : String → Bool) (now : String)
    (data : MockDataState) (st : SyncStatus) (h : st.isSyncing = false) :
    (issuedCalls data).length =
      ((if data.pipelines ≠ [] then 1 else 0) + (if data.datasets ≠ [] then 1 else 0)
        + (if data.alerts ≠ [] then 1 else 0) + (if data.experiments ≠ [] then 1 else 0)
        + (if data.externalConnections ≠ [] then 1 else 0) : Nat)
    ∧ ("pipelines" ∈ issuedCalls data ↔ data.pipelines ≠ [])
    ∧ ("datasets" ∈ issuedCalls data ↔ data.datasets ≠ [])
    ∧ ("alerts" ∈ issuedCalls data ↔ data.alerts ≠ [])
    ∧ ("experiments" ∈ issuedCalls data ↔ data.experiments ≠ [])
    ∧ ("external_connections" ∈ issuedCalls data ↔ data.externalConnections ≠ [])
    ∧ (issuedCalls data).Nodup
    ∧ (triggerSync fails now data st).syncErrors =
        ((issuedCalls data).filter fails).map syncFailureMsg := by
  refine ⟨?_, ?_, ?_, ?_, ?_, ?_, ?_, ?_⟩
  · simp only [issuedCalls, List.length_append, length_ite_singleton, gt_iff_lt,
      List.length_pos]
  · simp [issuedCalls, mem_ite_singleton, List.length_pos]
  · simp [issuedCalls, mem_ite_singleton, List.length_pos]
  · simp [issuedCalls, mem_ite_singleton, List.length_pos]
  · simp [issuedCalls, mem_ite_singleton, List.length_pos]
  · simp [issuedCalls, mem_ite_singleton, List.length_pos]
  · have hsub : (issuedCalls data).Sublist
        ["pipelines", "datasets", "alerts", "experiments", "external_connections"] := by
      have h1 : (if data.pipelines.length > 0 then ["pipelines"] else []).Sublist
          ["pipelines"] := by split <;> simp
      have h2 : (if data.datasets.length > 0 then ["datasets"] else []).Sublist
          ["datasets"] := by split <;> simp
      have h3 : (if data.alerts.length > 0 then ["alerts"] else []).Sublist
          ["alerts"] := by split <;> simp
      have h4 : (if data.experiments.length > 0 then ["experiments"] else []).Sublist
          ["experiments"] := by split <;> simp
      have h5 : (if data.externalConnections.length > 0 then
          ["external_connections"] else []).Sublist ["external_connections"] := by
        split <;> simp
      unfold issuedCalls
      exact (((h1.append h2).append h3).append h4).append h5
    exact hsub.nodup (by decide)
  · simp [triggerSync, h]

/-- Witness for C3: the sample store (one dataset, one alert) with an
oracle failing only the alerts call: `"datasets"` is among the issued
calls, and the cycle ends with exactly this cycle's failure messages even
though a stale error sat in `syncErrors`. -/
theorem triggerSync_calls_witness :
    ("datasets" ∈ issuedCalls sampleSyncData ↔ sampleSyncData.datasets ≠ [])
    ∧ (triggerSync (fun t => t == "alerts") "t1" sampleSyncData
        sampleSyncStatus).syncErrors =
      ((issuedCalls sampleSyncData).filter (fun t => t == "alerts")).map
        syncFailureMsg := by
  have h := triggerSync_calls (fun t => t == "alerts") "t1" sampleSyncData
    sampleSyncStatus rfl
  exact ⟨h.2.2.1, h.2.2.2.2.2.2.2⟩

/-- C4: when `mergeDatasets(ids, newName)` selects a non-empty set of
existing datasets, the created dataset (prepended to the collection) has
`size` the sum of the selected sizes, `columns` the maximum of the
selected column counts (a member of them and an upper bound), and
`null_percentage` their arithmetic mean; specialised to a two-dataset
selection `[A, B]` this is `A.size + B.size`, `max A.columns B.columns`
and `(A.null_percentage + B.null_percentage) / 2`. -/
theorem mergeDatasets_stats (datasetIds : List String) (newName now : String)
    (st : MockDataState)
    (h : st.datasets.filter (fun d => datasetIds.contains d.id) ≠ []) :
    (mergeDatasets datasetIds newName now st).datasets =
      mergedDataset datasetIds newName now st :: st.datasets
    ∧ (mergedDataset datasetIds newName now st).size =
        ((st.datasets.filter (fun d => datasetIds.contains d.id)).map (·.size)).sum
    ∧ ((mergedDataset datasetIds newName now st).columns ∈
        (st.datasets.filter (fun d => datasetIds.contains d.id)).map (·.columns)
      ∧ ∀ c ∈ (st.datasets.filter (fun d => datasetIds.contains d.id)).map (·.columns),
          c ≤ (mergedDataset datasetIds newName now st).columns)
    ∧ (mergedDataset datasetIds newName now st).null_percentage =
        ((st.datasets.filter (fun d => datasetIds.contains d.id)).map
          (·.null_percentage)).sum /
          ((st.datasets.filter (fun d => datasetIds.contains d.id)).length : ℚ)
    ∧ (∀ A B, st.datasets.filter (fun d => datasetIds.contains d.id) = [A, B] →
        (mergedDataset datasetIds newName now st).size = A.size + B.size
        ∧ (mergedDataset datasetIds newName now st).columns = max A.columns B.columns
        ∧ (mergedDataset datasetIds newName now st).null_percentage =
            (A.null_percentage + B.null_percentage) / 2) := by
  refine ⟨rfl, ?_, ?_, ?_, ?_⟩
  · show (st.datasets.filter (fun d => datasetIds.contains d.id)).foldl
      (fun sum d => sum + d.size) 0 = _
    rw [foldl_add_nat]
    exact Nat.zero_add _
  · have hne : (st.datasets.filter (fun d => datasetIds.contains d.id)).map
        (·.columns) ≠ [] := by
      simpa using h
    exact foldr_max_spec _ hne
  · show (st.datasets.filter (fun d => datasetIds.contains d.id)).foldl
      (fun sum d => sum + d.null_percentage) 0 /
        ((st.datasets.filter (fun d => datasetIds.contains d.id)).length : ℚ) = _
    rw [foldl_add_rat, zero_add]
  · intro A B hAB
    refine ⟨?_, ?_, ?_⟩
    · show (st.datasets.filter (fun d => datasetIds.contains d.id)).foldl
        (fun sum d => sum + d.size) 0 = _
      rw [hAB]
      simp [List.foldl]
    · show ((st.datasets.filter (fun d => datasetIds.contains d.id)).map
        (·.columns)).foldr max 0 = _
      rw [hAB]
      simp
    · show (st.datasets.filter (fun d => datasetIds.contains d.id)).foldl
        (fun sum d => sum + d.null_percentage) 0 /
          ((st.datasets.filter (fun d => datasetIds.contains d.id)).length : ℚ) = _
      rw [hAB]
      norm_num [List.foldl]

/-- Witness for C4: merging the two sample datasets prepends the merged
record. -/
theorem mergeDatasets_stats_witness :
    (mergeDatasets ["d1", "d2"] "merged.csv" "t1" sampleMergeState).datasets =
      mergedDataset ["d1", "d2"] "merged.csv" "t1" sampleMergeState ::
        sampleMergeState.datasets :=
  (mergeDatasets_stats ["d1", "d2"] "merged.csv" "t1" sampleMergeState
    (by decide)).1

/-- C5: while a pipeline is `running` (with the `[0,100]` progress
invariant and a non-negative random draw, as `Math.random()` guarantees),
an interval tick never decreases `progress`; and if the tick transitions
the status to `completed`, it sets `progress` to exactly 100. -/
theorem pipelineTick_monotone (now : String) (p : Pipeline) (d : TickDraws)
    (hrun : p.status = .running) (hr : 0 ≤ d.rProg) (hp : p.progress ≤ 100) :
    p.progress ≤ (pipelineTick now p d).1.progress
    ∧ ((pipelineTick now p d).1.status = .completed →
        (pipelineTick now p d).1.progress = 100) := by
  unfold pipelineTick
  rw [if_pos hrun]
  by_cases hc : min 100 (p.progress + d.rProg * 10) ≥ 100
  · rw [if_pos hc]
    exact ⟨hp, fun _ => rfl⟩
  · rw [if_neg hc]
    constructor
    · show p.progress ≤ min 100 (p.progress + d.rProg * 10)
      refine le_min hp ?_
      have : 0 ≤ d.rProg * 10 := mul_nonneg hr (by norm_num)
      linarith
    · intro hst
      have : p.status = PStatus.completed := hst
      rw [hrun] at this
      cases this

/-- Witness for C5 at the sample running pipeline with draw 1/2. -/
theorem pipelineTick_monotone_witness :
    sampleRunningPipeline.progress ≤
      (pipelineTick "t" sampleRunningPipeline ⟨1/2, 0, 0, 0⟩).1.progress
    ∧ ((pipelineTick "t" sampleRunningPipeline ⟨1/2, 0, 0, 0⟩).1.status =
        .completed →
      (pipelineTick "t" sampleRunningPipeline ⟨1/2, 0, 0, 0⟩).1.progress = 100) :=
  pipelineTick_monotone "t" sampleRunningPipeline ⟨1/2, 0, 0, 0⟩ rfl
    (by norm_num) (by norm_num [sampleRunningPipeline])

/-- C8 (code bug): `handleStopPipeline` never cancels the interval timer —
its only effect is setting the status to idle, so `activeTimers` is left
exactly as it was; concretely, starting the sample pipeline and then
stopping it leaves its timer handle live. -/
theorem handleStopPipeline_leaves_timer_active :
    (∀ (id : String) (st : MonState),
      (handleStopPipeline id st).activeTimers = st.activeTimers)
    ∧ (handleStopPipeline "1" (handleStartPipeline "1"
        ⟨[sampleIdlePipeline], [], []⟩)).activeTimers = ["1"] := by
  constructor
  · intro id st
    rfl
  · rfl

/-- A tick whose progress draw is zero leaves the freshly started sample
pipeline exactly in place (`Math.random()` may return 0, making the
progress increment 0). -/
theorem pipelineTick_zero_fixed :
    pipelineTick "t" sampleStartedPipeline ⟨0, 0, 0, 0⟩ =
      (sampleStartedPipeline, false) := by
  norm_num [pipelineTick, sampleStartedPipeline]

/-- Iterating zero-draw ticks never moves the sample pipeline. -/
theorem runTicks_zero_fixed (n : Nat) :
    runTicks "t" (fun _ => ⟨0, 0, 0, 0⟩) sampleStartedPipeline n =
      sampleStartedPipeline := by
  induction n with
  | zero => rfl
  | succ n ih => simp [runTicks, ih, pipelineTick_zero_fixed]

/-- C6 counterexample: with the (admissible) all-zero random stream, after
1000 ticks the freshly started pipeline is still running at progress 0 —
there is no bound on the number of ticks needed to complete, so the claim
as stated is false. -/
theorem pipeline_termination_counterexample :
    (runTicks "t" (fun _ => ⟨0, 0, 0, 0⟩) sampleStartedPipeline 1000).status =
      .running
    ∧ (runTicks "t" (fun _ => ⟨0, 0, 0, 0⟩) sampleStartedPipeline 1000).progress
        = 0 := by
  rw [runTicks_zero_fixed 1000]
  exact ⟨rfl, rfl⟩

/-- A tick on a completed pipeline is the identity (the guard
`p.status === 'running'` fails). -/
theorem pipelineTick_completed_frozen (now : String) (p : Pipeline)
    (d : TickDraws) (h : p.status = .completed) :
    pipelineTick now p d = (p, false) := by
  unfold pipelineTick
  rw [if_neg (by simp [h])]

/-- A tick that reaches the completion branch establishes `SimDone`: the
final accuracy is clamped into `[0.75, 0.98] ⊆ [0,1]`. -/
theorem pipelineTick_completion_done (now : String) (p : Pipeline)
    (d : TickDraws) (hrun : p.status = .running)
    (hc : min 100 (p.progress + d.rProg * 10) ≥ 100) :
    SimDone (pipelineTick now p d).1 := by
  unfold pipelineTick SimDone
  rw [if_pos hrun, if_pos hc]
  refine ⟨rfl, rfl, _, rfl, ?_, ?_⟩
  · exact le_trans (by norm_num) (le_max_left _ _)
  · exact max_le (by norm_num) (le_trans (min_le_left _ _) (by norm_num))

/-- One tick under a draw of at least 1/2 either completes the pipeline or
advances progress by at least 5 while staying below 100. -/
theorem pipelineTick_step (now : String) (p : Pipeline) (d : TickDraws)
    (hrun : p.status = .running) (_hlt : p.progress < 100)
    (hd : 1/2 ≤ d.rProg) :
    SimDone (pipelineTick now p d).1 ∨
    ((pipelineTick now p d).1.status = .running ∧
      (pipelineTick now p d).1.progress < 100 ∧
      p.progress + 5 ≤ (pipelineTick now p d).1.progress) := by
  by_cases hc : min 100 (p.progress + d.rProg * 10) ≥ 100
  · left
    exact pipelineTick_completion_done now p d hrun hc
  · right
    unfold pipelineTick
    rw [if_pos hrun, if_neg hc]
    push_neg at hc
    refine ⟨hrun, hc, ?_⟩
    show p.progress + 5 ≤ min 100 (p.progress + d.rProg * 10)
    rcases min_choice (100 : ℚ) (p.progress + d.rProg * 10) with hm | hm
    · rw [hm] at hc
      exact absurd hc (lt_irrefl _)
    · rw [hm]
      nlinarith

/-- C6 amended: termination within a bounded number of ticks holds once
the per-tick progress draws are bounded below by a positive constant
(here 1/2, as a concrete bound; `Math.random()` alone guarantees only
`≥ 0`, which the counterexample shows is insufficient): a freshly started
pipeline is completed after 20 ticks with progress exactly 100 and
`model_accuracy` set inside `[0,1]`. -/
theorem pipeline_termination_amended (now : String) (p : Pipeline)
    (ds : Nat → TickDraws) (hrun : p.status = .running)
    (hp : p.progress = 0) (hd : ∀ n, 1/2 ≤ (ds n).rProg) :
    (runTicks now ds p 20).status = .completed
    ∧ (runTicks now ds p 20).progress = 100
    ∧ ∃ a, (runTicks now ds p 20).model_accuracy = some a ∧ 0 ≤ a ∧ a ≤ 1 := by
  have key : ∀ n, SimDone (runTicks now ds p n) ∨
      ((runTicks now ds p n).status = .running ∧
        (runTicks now ds p n).progress < 100 ∧
        5 * (n : ℚ) ≤ (runTicks now ds p n).progress) := by
    intro n
    induction n with
    | zero =>
      right
      refine ⟨hrun, ?_, ?_⟩
      · show p.progress < 100
        rw [hp]; norm_num
      · show 5 * ((0 : Nat) : ℚ) ≤ p.progress
        rw [hp]; norm_num
    | succ n ih =>
      rcases ih with hdone | ⟨hs, hlt, hge⟩
      · left
        show SimDone (pipelineTick now (runTicks now ds p n) (ds n)).1
        rw [pipelineTick_completed_frozen now _ (ds n) hdone.1]
        exact hdone
      · rcases pipelineTick_step now _ (ds n) hs hlt (hd n) with h2 | ⟨h2s, h2lt, h2ge⟩
        · left; exact h2
        · right
          refine ⟨h2s, h2lt, ?_⟩
          have hcast : ((n + 1 : Nat) : ℚ) = (n : ℚ) + 1 := by push_cast; ring
          show 5 * ((n + 1 : Nat) : ℚ) ≤ (pipelineTick now (runTicks now ds p n) (ds n)).1.progress
          rw [hcast]
          linarith
  rcases key 20 with hdone | ⟨_, _hlt, hge⟩
  · exact hdone
  · exfalso
    norm_num at hge
    linarith

/-- Witness for C6 amended: constant draws of 1/2 complete the sample
started pipeline in 20 ticks. -/
theorem pipeline_termination_amended_witness :
    (runTicks "t" (fun _ => ⟨1/2, 0, 0, 0⟩) sampleStartedPipeline 20).status =
      .completed
    ∧ (runTicks "t" (fun _ => ⟨1/2, 0, 0, 0⟩) sampleStartedPipeline 20).progress
        = 100
    ∧ ∃ a, (runTicks "t" (fun _ => ⟨1/2, 0, 0, 0⟩)
        sampleStartedPipeline 20).model_accuracy = some a ∧ 0 ≤ a ∧ a ≤ 1 :=
  pipeline_termination_amended "t" sampleStartedPipeline (fun _ => ⟨1/2, 0, 0, 0⟩)
    rfl rfl (fun _ => by norm_num)

/-- C9 counterexample: a tick with a full progress draw pushes the sample
pipeline to `completed`, yet the alerts collection stays empty — the
pipeline run simulator writes no completion alert (unlike the experiment
training simulator). -/
theorem pipeline_completion_alert_counterexample :
    ((monTick "1" "t" ⟨1, 0, 0, 0⟩ sampleMonState).pipelines.map (·.status) =
      [.completed])
    ∧ (monTick "1" "t" ⟨1, 0, 0, 0⟩ sampleMonState).alerts = [] := by
  constructor
  · norm_num [monTick, sampleMonState, pipelineTick]
  · rfl

/-- C9 amended: of the two timer-driven simulators, only the experiment
training simulator appends a completion alert when it finishes; the
pipeline run simulator's tick never touches the alerts collection, even on
the tick that completes the pipeline. -/
theorem completion_alerts_amended :
    (∀ (experimentId now : String) (dDur dAcc dPrec dRec : ℚ)
        (st : MockDataState),
      (modelTrainingComplete experimentId now dDur dAcc dPrec dRec st).alerts =
        ⟨"alert_" ++ now, "performance", .low,
          "Model training completed successfully", now, false⟩ :: st.alerts)
    ∧ (∀ (id now : String) (d : TickDraws) (st : MonState),
        (monTick id now d st).alerts = st.alerts) :=
  ⟨fun _ _ _ _ _ _ _ => rfl, fun _ _ _ _ => rfl⟩

/-- C1 counterexample: in `sampleBasenameState` the dataset id `d1` is
present and the experiment "sales model" matches the claim's cascade
predicate (its name contains the pre-extension part "sales" of
"sales.csv"), yet `deleteDataset` keeps it: with no pipeline referencing
the dataset, the source's `some` over removed pipeline names is vacuously
false, so the basename disjunct is never consulted. -/
theorem deleteDataset_cascade_counterexample :
    (sampleBasenameState.datasets.map (·.id) = ["d1"])
    ∧ specExperimentMatches "sales.csv" []
        ⟨"e1", "sales model", .completed, "", {}, "", none⟩ = true
    ∧ ((deleteDataset "d1" "t0" sampleBasenameState).experiments.map (·.id) =
        ["e1"]) := by
  refine ⟨rfl, by decide, ?_⟩
  rfl

/-- C1 amended: for a present dataset id (with per-collection ids
distinct), `deleteDataset` removes the dataset and exactly the
cascade-matched entities — pipelines whose `dataset_id` equals the id;
experiments matched by `relatedExperimentPred` (for SOME removed pipeline
name, the experiment's lower-cased name contains that name's first word or
the dataset's pre-extension basename — so with zero removed pipelines no
experiment is cascaded, unlike the claim's free-standing basename
disjunct); alerts whose message mentions the dataset, a removed pipeline
or a removed experiment; connections whose synthesized external name is
contained in the dataset's name — everything else remains, and exactly
one summary alert enumerating the removal counts is prepended. -/
theorem deleteDataset_cascade_amended
    (datasetId now : String) (st : MockDataState) (dd : Dataset)
    (hfind : st.datasets.find? (fun d => d.id == datasetId) = some dd)
    (hnp : (st.pipelines.map (·.id)).Nodup)
    (hne : (st.experiments.map (·.id)).Nodup)
    (hna : (st.alerts.map (·.id)).Nodup)
    (hnc : (st.externalConnections.map (·.id)).Nodup) :
    (∀ d, d ∈ (deleteDataset datasetId now st).datasets ↔
      d ∈ st.datasets ∧ d.id ≠ datasetId)
    ∧ (∀ p, p ∈ (deleteDataset datasetId now st).pipelines ↔
      p ∈ st.pipelines ∧ p.dataset_id ≠ some datasetId)
    ∧ (∀ e, e ∈ (deleteDataset datasetId now st).experiments ↔
      e ∈ st.experiments ∧
        relatedExperimentPred dd.name (relNames datasetId st) e = false)
    ∧ (∀ c, c ∈ (deleteDataset datasetId now st).externalConnections ↔
      c ∈ st.externalConnections ∧ relatedConnectionPred dd.name c = false)
    ∧ (deleteDataset datasetId now st).alerts =
        cascadeSummaryAlert datasetId now dd.name st ::
          st.alerts.filter (fun a => !(relatedAlertPred dd.name
            (relNames datasetId st) (relExps datasetId dd.name st) a)) := by
  have hD : (deleteDataset datasetId now st).datasets =
      st.datasets.filter (fun d => d.id != datasetId) := by
    unfold deleteDataset
    rw [hfind]
  have hP : (deleteDataset datasetId now st).pipelines =
      st.pipelines.filter (fun p => !(relatedPipelinePred datasetId p)) := by
    unfold deleteDataset
    rw [hfind]
    exact cascade_filter_eq st.pipelines (relatedPipelinePred datasetId) (·.id) hnp
  have hE : (deleteDataset datasetId now st).experiments =
      st.experiments.filter (fun e =>
        !(relatedExperimentPred dd.name (relNames datasetId st) e)) := by
    unfold deleteDataset
    rw [hfind]
    exact cascade_filter_eq st.experiments
      (relatedExperimentPred dd.name (relNames datasetId st)) (·.id) hne
  have hC : (deleteDataset datasetId now st).externalConnections =
      st.externalConnections.filter (fun c =>
        !(relatedConnectionPred dd.name c)) := by
    unfold deleteDataset
    rw [hfind]
    exact cascade_filter_eq st.externalConnections
      (relatedConnectionPred dd.name) (·.id) hnc
  have hA : (deleteDataset datasetId now st).alerts =
      cascadeSummaryAlert datasetId now dd.name st ::
        st.alerts.filter (fun a => !(relatedAlertPred dd.name
          (relNames datasetId st) (relExps datasetId dd.name st) a)) := by
    unfold deleteDataset
    rw [hfind]
    exact congrArg (cascadeSummaryAlert datasetId now dd.name st :: ·)
      (cascade_filter_eq st.alerts (relatedAlertPred dd.name
        (relNames datasetId st) (relExps datasetId dd.name st)) (·.id) hna)
  refine ⟨?_, ?_, ?_, ?_, hA⟩
  · intro d
    rw [hD]
    simp [List.mem_filter]
  · intro p
    rw [hP]
    simp [List.mem_filter, relatedPipelinePred]
  · intro e
    rw [hE]
    simp [List.mem_filter]
  · intro c
    rw [hC]
    simp [List.mem_filter]

/-- Witness for C1 amended at the full-cascade sample store: membership
characterization of the experiments collection after deleting `d1`. -/
theorem deleteDataset_cascade_amended_witness :
    (⟨"e1", "sales model", .completed, "", {}, "", none⟩ : Experiment) ∈
      (deleteDataset "d1" "t0" sampleCascadeState).experiments ↔
    ((⟨"e1", "sales model", .completed, "", {}, "", none⟩ : Experiment) ∈
      sampleCascadeState.experiments ∧
      relatedExperimentPred "sales.csv" (relNames "d1" sampleCascadeState)
        ⟨"e1", "sales model", .completed, "", {}, "", none⟩ = false) :=
  (deleteDataset_cascade_amended "d1" "t0" sampleCascadeState
    ⟨"d1", "sales.csv", 10, 2, 0, ""⟩ rfl (by decide) (by decide) (by decide)
    (by decide)).2.2.1 ⟨"e1", "sales model", .completed, "", {}, "", none⟩
